import Mathlib

/-!
# Verification of the AATN Firebase connection manager
Shallow embedding of `src/configfirebase_config.py` (module
`configfirebase_config`): the configuration loader `FirebaseConfig.from_env`
and the singleton `FirebaseManager` with its operations
`_initialize_firebase`, the `firestore` property, `health_check` and
`cleanup`.  Python exceptions are modelled with `Except`, the process
environment as a record of the three consulted variables, and every call
across the SDK boundary (path existence, credential construction, app
registration, client construction, collection listing, handle close) as an
oracle `World` whose outcomes are unconstrained.  Side effects (log emissions
and calls) are recorded in an event trace.
-/

/-- Python exception values that arise in the module, carrying `str(e)`
(the message) or, for `NameError`, the unbound name. -/
inductive PyErr where
  | valueError (msg : String)
  | connectionError (msg : String)
  | nameError (name : String)
  | defaultCredentialsError (msg : String)
  | fileNotFoundError (msg : String)
  | otherError (msg : String)
deriving DecidableEq, Repr

/-- `str(e)` of a Python exception as used in f-strings. -/
def pyStr : PyErr → String
  | .valueError m => m
  | .connectionError m => m
  | .nameError n => "name " ++ n ++ " is not defined"
  | .defaultCredentialsError m => m
  | .fileNotFoundError m => m
  | .otherError m => m

/-- The classes caught by `except (DefaultCredentialsError, FileNotFoundError)`
at line 86 of the source. -/
def isCredentialsErr : PyErr → Bool
  | .defaultCredentialsError _ => true
  | .fileNotFoundError _ => true
  | _ => false

/-- A log record emitted through `logger`. -/
inductive LogEvent where
  | error (msg : String)
  | info (msg : String)
  | warning (msg : String)
deriving DecidableEq, Repr

/-- Python truthiness of an optional string: `None` and `""` are falsy. -/
def truthy : Option String → Bool
  | none => false
  | some s => s ≠ ""

/-- The process environment restricted to the three variables the module
reads with `os.getenv`; `none` models an unset variable. -/
structure Env where
  FIREBASE_PROJECT_ID : Option String
  FIREBASE_CREDENTIALS_PATH : Option String
  FIREBASE_DATABASE_URL : Option String
deriving DecidableEq, Repr

/-- The `FirebaseConfig` dataclass (lines 17-22). -/
structure FirebaseConfig where
  project_id : String
  credentials_path : Option String
  database_url : Option String
deriving DecidableEq, Repr

/-- `FirebaseConfig.from_env` (lines 24-39): reads the three environment
variables, raises `ValueError` when the project id is unset or empty
(Python falsy), logs and re-raises any error of the body.  Returns the
outcome together with the log records the call emits. -/
def from_env (env : Env) : Except PyErr FirebaseConfig × List LogEvent :=
  let body : Except PyErr FirebaseConfig :=
    if truthy env.FIREBASE_PROJECT_ID then
      .ok { project_id := env.FIREBASE_PROJECT_ID.getD ""
            credentials_path := env.FIREBASE_CREDENTIALS_PATH
            database_url := env.FIREBASE_DATABASE_URL }
    else
      .error (.valueError "FIREBASE_PROJECT_ID environment variable not set")
  match body with
  | .ok c => (.ok c, [])
  | .error e =>
      (.error e, [.error ("Failed to load Firebase config from env: " ++ pyStr e)])

/-- A credential object, as selected at lines 67-73: either
`credentials.Certificate(path)` or `credentials.ApplicationDefault()`. -/
inductive Cred where
  | certificate (path : String)
  | applicationDefault
deriving DecidableEq, Repr

/-- The `app_options` dict built at lines 76-78: always the project id,
plus the database URL when the configured value is truthy. -/
structure AppOptions where
  projectId : String
  databaseURL : Option String
deriving DecidableEq, Repr

/-- The mutable state a constructed `FirebaseManager` instance sees:
its `config` attribute, the cached `_firestore_client` (an opaque handle
modelled as a `Nat` id, `none` when absent), and the process-global
`firebase_admin._apps` registry (`some` records the credential and options
the app was registered with, `none` means the registry is empty). -/
structure MState where
  config : FirebaseConfig
  firestore_client : Option Nat
  apps : Option (Cred × AppOptions)
deriving DecidableEq, Repr

/-- Side effects recorded while an operation runs: log emissions,
an execution of `FirebaseConfig.from_env`, an entry into
`_initialize_firebase`, a successful `firebase_admin.initialize_app`
registration, a `firestore.client()` call, a `collections()` listing and a
handle `close()`. -/
inductive Event where
  | log (e : LogEvent)
  | loadConfig
  | initAttempt
  | registerApp (c : Cred) (o : AppOptions)
  | clientCtor
  | listCollections
  | closeHandle
deriving DecidableEq, Repr

/-- Outcomes of the calls across the SDK / OS boundary, left arbitrary:
`pathExists` models `os.path.exists`; `certificateOutcome path` the
`credentials.Certificate(path)` constructor; `applicationDefaultOutcome`
the `credentials.ApplicationDefault()` constructor;
`initAppOutcome` the `firebase_admin.initialize_app` call;
`clientOutcome` the `firestore.client()` call (its value is the handle the
SDK returns); `collectionsOutcome` the enumeration
`list(client.collections())` (its value is the resulting count);
`closeOutcome` the `client.close()` call. -/
structure World where
  pathExists : String → Bool
  certificateOutcome : String → Except PyErr Unit
  applicationDefaultOutcome : Except PyErr Unit
  initAppOutcome : Except PyErr Unit
  clientOutcome : Except PyErr (Option Nat)
  collectionsOutcome : Except PyErr Nat
  closeOutcome : Except PyErr Unit

/-- The tail of the `try` body of `_initialize_firebase` from line 83:
`self._firestore_client = firestore.client()` followed by the success log.
State changes made before an exception persist. -/
def initialize_client_step (w : World) (s : MState) (ev : List Event) :
    Except PyErr Unit × MState × List Event :=
  match w.clientOutcome with
  | .error e => (.error e, s, ev ++ [.clientCtor])
  | .ok c =>
      (.ok (), { s with firestore_client := c },
       ev ++ [.clientCtor,
              .log (.info ("Firebase initialized successfully for project: " ++
                s.config.project_id))])

/-- The registration tail of the `try` body (lines 76-80): build
`app_options` and call `firebase_admin.initialize_app(cred, app_options)`;
on success the process-global app registry becomes non-empty. -/
def initialize_register_step (w : World) (cred : Cred) (s : MState)
    (ev : List Event) : Except PyErr Unit × MState × List Event :=
  let opts : AppOptions :=
    { projectId := s.config.project_id
      databaseURL :=
        if truthy s.config.database_url then s.config.database_url else none }
  match w.initAppOutcome with
  | .error e => (.error e, s, ev)
  | .ok _ =>
      initialize_client_step w { s with apps := some (cred, opts) }
        (ev ++ [.registerApp cred opts])

/-- The `try` body of `_initialize_firebase` (lines 61-84): when the app
registry is empty, select a certificate credential iff the configured
credentials path is truthy and exists on disk (else default credentials),
log which, and register the app; in every case construct and cache the
Firestore client.  An `.error` outcome models an exception escaping the
body, with the state and events accumulated up to that point. -/
def initialize_firebase_body (w : World) (s : MState) :
    Except PyErr Unit × MState × List Event :=
  match s.apps with
  | some _ => initialize_client_step w s []
  | none =>
      if truthy s.config.credentials_path &&
          w.pathExists (s.config.credentials_path.getD "") then
        match w.certificateOutcome (s.config.credentials_path.getD "") with
        | .error e => (.error e, s, [])
        | .ok _ =>
            initialize_register_step w
              (.certificate (s.config.credentials_path.getD "")) s
              [.log (.info ("Initializing Firebase with credentials from " ++
                 s.config.credentials_path.getD ""))]
      else
        match w.applicationDefaultOutcome with
        | .error e => (.error e, s, [])
        | .ok _ =>
            initialize_register_step w .applicationDefault s
              [.log (.info
                 "Initializing Firebase with default application credentials")]

/-- `FirebaseManager._initialize_firebase` (lines 59-91): runs the body;
a `DefaultCredentialsError` or `FileNotFoundError` is logged and converted
into a `ConnectionError`, any other exception is logged and re-raised
unchanged. -/
def initialize_firebase (w : World) (s : MState) :
    Except PyErr Unit × MState × List Event :=
  match initialize_firebase_body w s with
  | (.ok _, s1, ev) => (.ok (), s1, Event.initAttempt :: ev)
  | (.error e, s1, ev) =>
      if isCredentialsErr e then
        (.error (.connectionError ("Failed to initialize Firebase: " ++ pyStr e)),
         s1,
         Event.initAttempt :: ev ++
           [.log (.error ("Firebase credentials error: " ++ pyStr e))])
      else
        (.error e, s1,
         Event.initAttempt :: ev ++
           [.log (.error ("Unexpected error initializing Firebase: " ++ pyStr e))])

/-- Recognizer for `Event.initAttempt`. -/
def isInitAttemptEv : Event → Bool
  | .initAttempt => true
  | _ => false

/-- Recognizer for `Event.loadConfig`. -/
def isLoadConfigEv : Event → Bool
  | .loadConfig => true
  | _ => false

/-- Recognizer for `Event.registerApp`. -/
def isRegisterEv : Event → Bool
  | .registerApp _ _ => true
  | _ => false

/-- Number of `_initialize_firebase` executions recorded in a trace. -/
def countInitAttempts (ev : List Event) : Nat := ev.countP isInitAttemptEv

/-- Number of `from_env` executions recorded in a trace. -/
def countLoads (ev : List Event) : Nat := ev.countP isLoadConfigEv

/-- Number of app registrations recorded in a trace. -/
def countRegisters (ev : List Event) : Nat := ev.countP isRegisterEv

/-- The `firestore` property (lines 93-103): return the cached client; when
absent, log a warning, call `_initialize_firebase` once (propagating its
exception), and if the client is still absent raise
`ConnectionError("Firestore client unavailable after reinitialization")`. -/
def firestore (w : World) (s : MState) :
    Except PyErr Nat × MState × List Event :=
  match s.firestore_client with
  | some c => (.ok c, s, [])
  | none =>
      let ev0 : List Event :=
        [.log (.warning
           "Firestore client not initialized, attempting reinitialization")]
      match initialize_firebase w s with
      | (.error e, s1, ev) => (.error e, s1, ev0 ++ ev)
      | (.ok _, s1, ev) =>
          match s1.firestore_client with
          | none =>
              (.error (.connectionError
                 "Firestore client unavailable after reinitialization"),
               s1, ev0 ++ ev)
          | some c => (.ok c, s1, ev0 ++ ev)

/-- The names bound in the global namespace of `configfirebase_config.py`
are only those of the module-level imports (lines 5-11) and definitions:
`os`, `logging`, `Optional`, `Dict`, `Any`, `dataclass`,
`DefaultCredentialsError`, `FirestoreClient`, `BaseClient`, `logger`,
`FirebaseConfig`, `FirebaseManager`.  The name `firestore` is bound only in
the local scope of `_initialize_firebase` (line 63), so at `health_check`
scope it is unbound. -/
def module_binds_firestore : Bool := false

/-- Evaluating the expression `firestore.SERVER_TIMESTAMP` in
`health_check` (lines 114 and 121): a `NameError` when the name
`firestore` is not bound in an enclosing scope. -/
def server_timestamp_eval : Except PyErr Unit :=
  if module_binds_firestore then .ok () else .error (.nameError "firestore")

/-- Status field of a health-check dict. -/
inductive HcStatus where
  | healthy
  | unhealthy
deriving DecidableEq, Repr

/-- The dict `health_check` builds (lines 110-115 / 118-122), field by
field; absent keys are `none`. -/
structure HcDict where
  status : HcStatus
  project_id : Option String
  collections_count : Option Nat
  error : Option String
deriving DecidableEq, Repr

/-- The `try` body of `health_check` (lines 108-115): access the
`firestore` property, enumerate `collections()`, then evaluate the success
dict literal, whose last value is `firestore.SERVER_TIMESTAMP`. -/
def health_check_body (w : World) (s : MState) :
    Except PyErr HcDict × MState × List Event :=
  match firestore w s with
  | (.error e, s1, ev) => (.error e, s1, ev)
  | (.ok _, s1, ev) =>
      match w.collectionsOutcome with
      | .error e => (.error e, s1, ev ++ [.listCollections])
      | .ok n =>
          match server_timestamp_eval with
          | .error e => (.error e, s1, ev ++ [.listCollections])
          | .ok _ =>
              (.ok { status := .healthy, project_id := some s.config.project_id,
                     collections_count := some n, error := none },
               s1, ev ++ [.listCollections])

/-- `FirebaseManager.health_check` (lines 105-122): run the body; on any
exception log it and evaluate the unhealthy dict literal, whose last value
is again `firestore.SERVER_TIMESTAMP` — an exception raised there escapes
`health_check` itself. -/
def health_check (w : World) (s : MState) :
    Except PyErr HcDict × MState × List Event :=
  match health_check_body w s with
  | (.ok d, s1, ev) => (.ok d, s1, ev)
  | (.error e, s1, ev) =>
      let ev1 := ev ++ [.log (.error ("Firebase health check failed: " ++ pyStr e))]
      match server_timestamp_eval with
      | .error e2 => (.error e2, s1, ev1)
      | .ok _ =>
          (.ok { status := .unhealthy, project_id := none,
                 collections_count := none, error := some (pyStr e) },
           s1, ev1)

/-- `FirebaseManager.cleanup` (lines 124-132): when a client is cached,
close it, clear the cache and log completion; any exception of the body is
caught and logged.  The outer `Except` layer records whether the call
raises to its caller. -/
def cleanup (w : World) (s : MState) :
    Except PyErr Unit × MState × List Event :=
  let body : Except PyErr Unit × MState × List Event :=
    match s.firestore_client with
    | none => (.ok (), s, [])
    | some _ =>
        match w.closeOutcome with
        | .error e => (.error e, s, [.closeHandle])
        | .ok _ =>
            (.ok (), { s with firestore_client := none },
             [.closeHandle, .log (.info "Firebase connections cleaned up")])
  match body with
  | (.ok _, s1, ev) => (.ok (), s1, ev)
  | (.error e, s1, ev) =>
      (.ok (), s1,
       ev ++ [.log (.error ("Error during Firebase cleanup: " ++ pyStr e))])

/-- The process-wide state the singleton machinery manipulates:
`_instance` is `FirebaseManager._instance` (the allocation id of the
stored object, `none` before any allocation), `nextId` a fresh-allocation
counter, `initialized` the `_initialized` flag the stored instance sees
(class default `False` until the instance attribute is set at line 57),
`config?` the `config` attribute (`none` while unassigned),
`firestore_client` and `apps` as in `MState`. -/
structure ProcState where
  _instance : Option Nat
  nextId : Nat
  initialized : Bool
  config? : Option FirebaseConfig
  firestore_client : Option Nat
  apps : Option (Cred × AppOptions)
deriving DecidableEq, Repr

/-- A freshly started process: nothing allocated, flag at its class
default `False`, no config, no client, empty `firebase_admin._apps`. -/
def freshProc : ProcState :=
  { _instance := none, nextId := 0, initialized := false, config? := none,
    firestore_client := none, apps := none }

/-- One evaluation of the expression `FirebaseManager()`:
`__new__` (lines 48-51) allocates and stores an instance only when
`_instance` is `None`, then `__init__` (lines 53-57) — when the
`_initialized` flag is unset — assigns `self.config = FirebaseConfig.from_env()`,
runs `self._initialize_firebase()`, and only then sets the flag.  An
exception from either step escapes to the caller; on success the result is
the id of the returned instance. -/
def construct (w : World) (env : Env) (s : ProcState) :
    Except PyErr Nat × ProcState × List Event :=
  let alloc : Nat × ProcState :=
    match s._instance with
    | some i => (i, s)
    | none =>
        (s.nextId,
         { s with _instance := some s.nextId, nextId := s.nextId + 1 })
  let iid := alloc.1
  let s1 := alloc.2
  if s1.initialized then (.ok iid, s1, [])
  else
    match from_env env with
    | (.error e, lg) => (.error e, s1, Event.loadConfig :: lg.map Event.log)
    | (.ok cfg, lg) =>
        let s2 := { s1 with config? := some cfg }
        match initialize_firebase w ⟨cfg, s2.firestore_client, s2.apps⟩ with
        | (.error e, m1, ev) =>
            (.error e,
             { s2 with firestore_client := m1.firestore_client,
                       apps := m1.apps },
             Event.loadConfig :: lg.map Event.log ++ ev)
        | (.ok _, m1, ev) =>
            (.ok iid,
             { s2 with firestore_client := m1.firestore_client,
                       apps := m1.apps, initialized := true },
             Event.loadConfig :: lg.map Event.log ++ ev)

/-- Recognizer: does an accessor outcome raise a `ConnectionError`? -/
def raisesConnectionError : Except PyErr Nat → Bool
  | .error (.connectionError _) => true
  | _ => false

/-- A concrete world in which every call across the SDK boundary succeeds:
no path exists on disk, registration succeeds, the client constructor
returns handle `7`, the listing finds `3` collections, close succeeds. -/
def wAllOk : World :=
  { pathExists := fun _ => false
    certificateOutcome := fun _ => .ok ()
    applicationDefaultOutcome := .ok ()
    initAppOutcome := .ok ()
    clientOutcome := .ok (some 7)
    collectionsOutcome := .ok 3
    closeOutcome := .ok () }

/-- Like `wAllOk` but `firestore.client()` raises `ValueError("boom")`. -/
def wClientBoom : World :=
  { wAllOk with clientOutcome := .error (.valueError "boom") }

/-- Like `wAllOk` but default-credential resolution raises
`DefaultCredentialsError("no creds")`. -/
def wNoCreds : World :=
  { wAllOk with
      applicationDefaultOutcome := .error (.defaultCredentialsError "no creds") }

/-- Like `wAllOk` but the path `/k.json` exists on disk. -/
def wCert : World :=
  { wAllOk with pathExists := fun p => p = "/k.json" }

/-- A constructed manager for project `proj-1`, no cached client, empty
app registry. -/
def sNoClient : MState := ⟨⟨"proj-1", none, none⟩, none, none⟩

/-- A constructed manager with an already-registered app and no cached
client. -/
def sRegisteredNoClient : MState :=
  ⟨⟨"proj-1", none, none⟩, none,
   some (.applicationDefault, ⟨"proj-1", none⟩)⟩

/-- A constructed manager configured with a certificate path and a
database URL, no cached client, empty app registry. -/
def sCert : MState :=
  ⟨⟨"proj-1", some "/k.json", some "https://db.example"⟩, none, none⟩

/-- C5: for every environment in which the project-identifier variable is
unset or empty, `from_env` fails with the configuration `ValueError`, no
configuration object is returned, and a diagnostic error log is emitted
with the failure. -/
theorem from_env_missing_id_fails (env : Env)
    (h : truthy env.FIREBASE_PROJECT_ID = false) :
    from_env env =
      (.error (.valueError "FIREBASE_PROJECT_ID environment variable not set"),
       [.error ("Failed to load Firebase config from env: " ++
          "FIREBASE_PROJECT_ID environment variable not set")]) := by
  simp [from_env, h, pyStr]

/-- Witness for `from_env_missing_id_fails` at the concrete environment
with all three variables unset. -/
theorem from_env_missing_id_fails_witness :
    from_env ⟨none, none, none⟩ =
      (.error (.valueError "FIREBASE_PROJECT_ID environment variable not set"),
       [.error ("Failed to load Firebase config from env: " ++
          "FIREBASE_PROJECT_ID environment variable not set")]) :=
  from_env_missing_id_fails ⟨none, none, none⟩ (by decide)

/-- C6: for every environment in which the project-identifier variable is a
non-empty string, `from_env` succeeds and the resulting object carries
exactly the environment values, unset optionals mapping to `none`; no log
is emitted. -/
theorem from_env_present_id_succeeds (env : Env) (pid : String)
    (h : env.FIREBASE_PROJECT_ID = some pid) (hne : pid ≠ "") :
    from_env env =
      (.ok { project_id := pid
             credentials_path := env.FIREBASE_CREDENTIALS_PATH
             database_url := env.FIREBASE_DATABASE_URL }, []) := by
  simp [from_env, truthy, h, hne]

/-- Witness for `from_env_present_id_succeeds` at the spec scenario
identifier `proj-1`, no credentials path, no database URL. -/
theorem from_env_present_id_succeeds_witness :
    from_env ⟨some "proj-1", none, none⟩ =
      (.ok { project_id := "proj-1", credentials_path := none,
             database_url := none }, []) :=
  from_env_present_id_succeeds ⟨some "proj-1", none, none⟩ "proj-1" rfl
    (by decide)

/-- The body of `_initialize_firebase` records no entry into
`_initialize_firebase` itself and no configuration load. -/
theorem initialize_firebase_body_trace (w : World) (s : MState) :
    countInitAttempts (initialize_firebase_body w s).2.2 = 0 ∧
    countLoads (initialize_firebase_body w s).2.2 = 0 := by
  unfold initialize_firebase_body initialize_register_step
    initialize_client_step
  split <;> [skip; split] <;>
  · repeat' split
    all_goals simp [countInitAttempts, countLoads, isInitAttemptEv,
      isLoadConfigEv, List.countP_append, List.countP_cons]

/-- Every execution of `_initialize_firebase` records exactly one entry
event and no configuration load. -/
theorem initialize_firebase_trace (w : World) (s : MState) :
    countInitAttempts (initialize_firebase w s).2.2 = 1 ∧
    countLoads (initialize_firebase w s).2.2 = 0 := by
  have hb := initialize_firebase_body_trace w s
  unfold initialize_firebase
  split
  case _ s1 ev heq =>
    rw [heq] at hb
    simpa [countInitAttempts, countLoads, isInitAttemptEv, isLoadConfigEv,
      List.countP_cons] using hb
  case _ e s1 ev heq =>
    rw [heq] at hb
    split <;>
    simp_all [countInitAttempts, countLoads, isInitAttemptEv, isLoadConfigEv,
      List.countP_cons, List.countP_append]

/-- The `try` body of `health_check` can never return a dict: the success
dict literal ends by evaluating `firestore.SERVER_TIMESTAMP`, and the name
`firestore` is unbound at module scope. -/
theorem health_check_body_never_ok (w : World) (s : MState) :
    ∃ e, (health_check_body w s).1 = .error e := by
  unfold health_check_body
  rcases hf : firestore w s with ⟨r, s1, ev⟩
  cases r with
  | error e => exact ⟨e, rfl⟩
  | ok c =>
      cases hc : w.collectionsOutcome with
      | error e => exact ⟨e, by simp [hc]⟩
      | ok n =>
          exact ⟨.nameError "firestore",
            by simp [hc, server_timestamp_eval, module_binds_firestore]⟩

/-- C1 (refuted by the code): `health_check` raises on every state and
every behaviour of the external store.  Both the success dict (line 114)
and the failure dict (line 121) evaluate `firestore.SERVER_TIMESTAMP`,
but `firestore` is only imported inside `_initialize_firebase`, so the
name is unbound at `health_check` scope and the call always escapes with
`NameError` instead of returning a status dict. -/
theorem health_check_always_raises (w : World) (s : MState) :
    (health_check w s).1 = .error (.nameError "firestore") := by
  obtain ⟨e, he⟩ := health_check_body_never_ok w s
  unfold health_check
  rcases hb : health_check_body w s with ⟨r, s1, ev⟩
  rw [hb] at he
  cases r with
  | error e0 => simp [server_timestamp_eval, module_binds_firestore]
  | ok d => simp at he

/-- C9: `cleanup` never raises; with no cached client it does nothing;
with a cached client it closes it, and on a successful close clears the
cache and logs completion, while a failing close is caught, logged and
discarded with the state otherwise untouched. -/
theorem cleanup_spec (w : World) (s : MState) :
    (cleanup w s).1 = .ok () ∧
    (s.firestore_client = none → cleanup w s = (.ok (), s, [])) ∧
    (∀ c, s.firestore_client = some c →
       (w.closeOutcome = .ok () →
          cleanup w s = (.ok (), { s with firestore_client := none },
            [.closeHandle, .log (.info "Firebase connections cleaned up")])) ∧
       (∀ e, w.closeOutcome = .error e →
          cleanup w s = (.ok (), s,
            [.closeHandle,
             .log (.error ("Error during Firebase cleanup: " ++ pyStr e))]))) := by
  refine ⟨?_, ?_, ?_⟩
  · unfold cleanup
    cases hc : s.firestore_client with
    | none => rfl
    | some c => cases ho : w.closeOutcome <;> simp
  · intro h
    simp [cleanup, h]
  · intro c hc
    constructor
    · intro ho
      simp [cleanup, hc, ho]
    · intro e ho
      simp [cleanup, hc, ho]

/-- Witness for `cleanup_spec`: a cached client whose close fails with
`ValueError("boom")` is caught, logged and left cached. -/
theorem cleanup_spec_witness :
    cleanup
      { pathExists := fun _ => false
        certificateOutcome := fun _ => .ok ()
        applicationDefaultOutcome := .ok ()
        initAppOutcome := .ok ()
        clientOutcome := .ok (some 7)
        collectionsOutcome := .ok 3
        closeOutcome := .error (.valueError "boom") }
      ⟨⟨"proj-1", none, none⟩, some 7, none⟩ =
    (.ok (), ⟨⟨"proj-1", none, none⟩, some 7, none⟩,
     [.closeHandle,
      .log (.error ("Error during Firebase cleanup: " ++ pyStr (.valueError "boom")))]) :=
  (((cleanup_spec _ ⟨⟨"proj-1", none, none⟩, some 7, none⟩).2.2 7 rfl).2
    (.valueError "boom") rfl)

/-- C10: when the close inside `cleanup` raises, the cached client
reference is left unchanged, and a subsequent access through the
`firestore` property returns that same handle with no state change and no
reinitialization attempt (an empty event trace). -/
theorem cleanup_close_failure_frame (w w2 : World) (s : MState) (c : Nat)
    (e : PyErr) (h1 : s.firestore_client = some c)
    (h2 : w.closeOutcome = .error e) :
    (cleanup w s).2.1.firestore_client = some c ∧
    firestore w2 (cleanup w s).2.1 = (.ok c, (cleanup w s).2.1, []) := by
  have hcl : cleanup w s = (.ok (), s,
      [.closeHandle,
       .log (.error ("Error during Firebase cleanup: " ++ pyStr e))]) := by
    simp [cleanup, h1, h2]
  rw [hcl]
  exact ⟨h1, by simp [firestore, h1]⟩

/-- Witness for `cleanup_close_failure_frame`: concrete failing close with
cached handle `7`; the follow-up accessor returns `7` untouched. -/
theorem cleanup_close_failure_frame_witness :
    (cleanup
      { pathExists := fun _ => false
        certificateOutcome := fun _ => .ok ()
        applicationDefaultOutcome := .ok ()
        initAppOutcome := .ok ()
        clientOutcome := .ok (some 7)
        collectionsOutcome := .ok 3
        closeOutcome := .error (.valueError "boom") }
      ⟨⟨"proj-1", none, none⟩, some 7, none⟩).2.1.firestore_client = some 7 ∧
    firestore
      { pathExists := fun _ => false
        certificateOutcome := fun _ => .ok ()
        applicationDefaultOutcome := .ok ()
        initAppOutcome := .ok ()
        clientOutcome := .ok (some 7)
        collectionsOutcome := .ok 3
        closeOutcome := .error (.valueError "boom") }
      (cleanup
        { pathExists := fun _ => false
          certificateOutcome := fun _ => .ok ()
          applicationDefaultOutcome := .ok ()
          initAppOutcome := .ok ()
          clientOutcome := .ok (some 7)
          collectionsOutcome := .ok 3
          closeOutcome := .error (.valueError "boom") }
        ⟨⟨"proj-1", none, none⟩, some 7, none⟩).2.1 =
      (.ok 7,
       (cleanup
         { pathExists := fun _ => false
           certificateOutcome := fun _ => .ok ()
           applicationDefaultOutcome := .ok ()
           initAppOutcome := .ok ()
           clientOutcome := .ok (some 7)
           collectionsOutcome := .ok 3
           closeOutcome := .error (.valueError "boom") }
         ⟨⟨"proj-1", none, none⟩, some 7, none⟩).2.1, []) :=
  cleanup_close_failure_frame _ _ ⟨⟨"proj-1", none, none⟩, some 7, none⟩ 7
    (.valueError "boom") rfl rfl

/-- C3 counterexample: with the app already registered, the client absent
and `firestore.client()` raising `ValueError("boom")`, the accessor makes
its single reinitialization attempt, the handle is still absent
afterwards, yet the accessor raises the propagated `ValueError` — not a
`ConnectionError` about unavailability after reinitialization. -/
theorem firestore_accessor_counterexample :
    sRegisteredNoClient.firestore_client = none ∧
    countInitAttempts (firestore wClientBoom sRegisteredNoClient).2.2 = 1 ∧
    (firestore wClientBoom sRegisteredNoClient).2.1.firestore_client = none ∧
    raisesConnectionError (firestore wClientBoom sRegisteredNoClient).1 = false ∧
    (firestore wClientBoom sRegisteredNoClient).1 = .error (.valueError "boom") :=
  ⟨rfl, rfl, rfl, rfl, rfl⟩

/-- C3 (amended): with a cached client the accessor returns it unchanged
with no reinitialization; with the client absent it makes exactly one
reinitialization attempt and then: an exception of the attempt propagates
unchanged, an attempt that returns with the client still absent yields
`ConnectionError("Firestore client unavailable after reinitialization")`,
and an attempt that cached a client yields that client. -/
theorem firestore_accessor_spec (w : World) (s : MState) :
    (∀ c, s.firestore_client = some c → firestore w s = (.ok c, s, [])) ∧
    (s.firestore_client = none →
       countInitAttempts (firestore w s).2.2 = 1 ∧
       (∀ e s1 ev, initialize_firebase w s = (.error e, s1, ev) →
          (firestore w s).1 = .error e) ∧
       (∀ s1 ev, initialize_firebase w s = (.ok (), s1, ev) →
          s1.firestore_client = none →
          (firestore w s).1 = .error (.connectionError
            "Firestore client unavailable after reinitialization")) ∧
       (∀ s1 ev c, initialize_firebase w s = (.ok (), s1, ev) →
          s1.firestore_client = some c → (firestore w s).1 = .ok c)) := by
  constructor
  · intro c hc
    simp [firestore, hc]
  · intro h
    have htr := initialize_firebase_trace w s
    refine ⟨?_, ?_, ?_, ?_⟩
    · rcases hi : initialize_firebase w s with ⟨r, s1, ev⟩
      rw [hi] at htr
      simp only [countInitAttempts] at htr ⊢
      have hev : List.countP isInitAttemptEv ev = 1 := htr.1
      cases r with
      | error e =>
          simp [firestore, h, hi, List.countP_cons, List.countP_append,
            isInitAttemptEv, hev]
      | ok u =>
          cases hs1 : s1.firestore_client <;>
          simp [firestore, h, hi, hs1, List.countP_cons, List.countP_append,
            isInitAttemptEv, hev]
    · intro e s1 ev hi
      simp [firestore, h, hi]
    · intro s1 ev hi hnone
      simp [firestore, h, hi, hnone]
    · intro s1 ev c hi hsome
      simp [firestore, h, hi, hsome]

/-- Witness for `firestore_accessor_spec`: with the client absent and
every SDK call succeeding, the single reinitialization attempt caches
handle `7` and the accessor returns it. -/
theorem firestore_accessor_spec_witness :
    (firestore wAllOk sNoClient).1 = .ok 7 :=
  (firestore_accessor_spec wAllOk sNoClient).2 rfl |>.2.2.2
    ⟨⟨"proj-1", none, none⟩, some 7,
     some (.applicationDefault, ⟨"proj-1", none⟩)⟩
    [Event.initAttempt,
     .log (.info "Initializing Firebase with default application credentials"),
     .registerApp .applicationDefault ⟨"proj-1", none⟩,
     .clientCtor,
     .log (.info "Firebase initialized successfully for project: proj-1")]
    7 rfl rfl

/-- In a list ending with `x` after a head element, the last entry is `x`. -/
theorem getLast_of_cons_append_singleton {α : Type} (a x : α) (l : List α) :
    (a :: (l ++ [x])).getLast? = some x := by
  rw [← List.cons_append, List.getLast?_append_cons]
  rfl

/-- The except wrapper of `_initialize_firebase` never changes the state
beyond what its `try` body already did. -/
theorem initialize_firebase_post_state (w : World) (s : MState) :
    (initialize_firebase w s).2.1 = (initialize_firebase_body w s).2.1 := by
  rcases h : initialize_firebase_body w s with ⟨r, s1, ev⟩
  cases r with
  | ok u => simp [initialize_firebase, h]
  | error e =>
      simp only [initialize_firebase, h]
      split <;> rfl

/-- The except wrapper of `_initialize_firebase` records no app
registration of its own. -/
theorem initialize_firebase_registers (w : World) (s : MState) :
    countRegisters (initialize_firebase w s).2.2 =
      countRegisters (initialize_firebase_body w s).2.2 := by
  rcases h : initialize_firebase_body w s with ⟨r, s1, ev⟩
  cases r with
  | ok u =>
      simp [initialize_firebase, h, countRegisters, List.countP_cons,
        isRegisterEv]
  | error e =>
      simp only [initialize_firebase, h]
      split <;>
      simp [countRegisters, List.countP_cons, List.countP_append, isRegisterEv]

/-- C7: whenever the `try` body of `_initialize_firebase` raises,
`_initialize_firebase` raises a `ConnectionError` wrapping the message
precisely when the exception was a `DefaultCredentialsError` or a
`FileNotFoundError`, and re-raises the very same exception otherwise; in
either case the last recorded event is an error log emitted before the
raise. -/
theorem init_error_classification (w : World) (s : MState) (e0 : PyErr)
    (s1 : MState) (ev : List Event)
    (h : initialize_firebase_body w s = (.error e0, s1, ev)) :
    (isCredentialsErr e0 = true →
       (initialize_firebase w s).1 =
         .error (.connectionError ("Failed to initialize Firebase: " ++ pyStr e0))) ∧
    (isCredentialsErr e0 = false → (initialize_firebase w s).1 = .error e0) ∧
    (∃ m, ((initialize_firebase w s).2.2).getLast? =
       some (.log (.error m))) := by
  cases hce : isCredentialsErr e0 with
  | true =>
      have hw : initialize_firebase w s =
          (.error (.connectionError ("Failed to initialize Firebase: " ++ pyStr e0)),
           s1,
           Event.initAttempt ::
             (ev ++ [.log (.error ("Firebase credentials error: " ++ pyStr e0))])) := by
        simp [initialize_firebase, h, hce]
      refine ⟨?_, ?_, ?_⟩
      · intro hx
        rw [hw]
      · intro hcon
        exact Bool.noConfusion hcon
      · refine ⟨"Firebase credentials error: " ++ pyStr e0, ?_⟩
        rw [hw]
        exact getLast_of_cons_append_singleton _ _ _
  | false =>
      have hw : initialize_firebase w s =
          (.error e0, s1,
           Event.initAttempt ::
             (ev ++ [.log (.error ("Unexpected error initializing Firebase: " ++
                pyStr e0))])) := by
        simp [initialize_firebase, h, hce]
      refine ⟨?_, ?_, ?_⟩
      · intro hcon
        exact Bool.noConfusion hcon
      · intro hx
        rw [hw]
      · refine ⟨"Unexpected error initializing Firebase: " ++ pyStr e0, ?_⟩
        rw [hw]
        exact getLast_of_cons_append_singleton _ _ _

/-- Witness for `init_error_classification`: default-credential
resolution failing with `DefaultCredentialsError("no creds")` surfaces as
a `ConnectionError` wrapping the message. -/
theorem init_error_classification_witness :
    (initialize_firebase wNoCreds sNoClient).1 =
      .error (.connectionError
        ("Failed to initialize Firebase: " ++
          pyStr (.defaultCredentialsError "no creds"))) := by
  have h := init_error_classification wNoCreds sNoClient
    (.defaultCredentialsError "no creds") sNoClient [] rfl
  exact h.1 rfl

/-- With an empty app registry, any registration the body of
`_initialize_firebase` leaves in the post-state used a certificate
credential exactly when the configured credentials path is truthy and
exists on disk, and options holding the project id and the configured
database URL (when truthy). -/
theorem initialize_firebase_body_registration (w : World) (s : MState)
    (h : s.apps = none) (cred : Cred) (opts : AppOptions)
    (hpost : (initialize_firebase_body w s).2.1.apps = some (cred, opts)) :
    cred = (if truthy s.config.credentials_path &&
               w.pathExists (s.config.credentials_path.getD "") then
              Cred.certificate (s.config.credentials_path.getD "")
            else Cred.applicationDefault) ∧
    opts.projectId = s.config.project_id ∧
    opts.databaseURL =
      (if truthy s.config.database_url then s.config.database_url else none) := by
  by_cases hc : (truthy s.config.credentials_path &&
      w.pathExists (s.config.credentials_path.getD "")) = true
  · cases hcert : w.certificateOutcome (s.config.credentials_path.getD "") with
    | error e =>
        simp [initialize_firebase_body, h, hc, hcert] at hpost
    | ok u =>
        cases happ : w.initAppOutcome with
        | error e =>
            simp [initialize_firebase_body, initialize_register_step, h, hc,
              hcert, happ] at hpost
        | ok u2 =>
            cases hcl : w.clientOutcome with
            | error e =>
                simp [initialize_firebase_body, initialize_register_step,
                  initialize_client_step, h, hc, hcert, happ, hcl] at hpost
                simp [hc, ← hpost.1, ← hpost.2]
            | ok c2 =>
                simp [initialize_firebase_body, initialize_register_step,
                  initialize_client_step, h, hc, hcert, happ, hcl] at hpost
                simp [hc, ← hpost.1, ← hpost.2]
  · cases hdef : w.applicationDefaultOutcome with
    | error e =>
        simp [initialize_firebase_body, h, hc, hdef] at hpost
    | ok u =>
        cases happ : w.initAppOutcome with
        | error e =>
            simp [initialize_firebase_body, initialize_register_step, h, hc,
              hdef, happ] at hpost
        | ok u2 =>
            cases hcl : w.clientOutcome with
            | error e =>
                simp [initialize_firebase_body, initialize_register_step,
                  initialize_client_step, h, hc, hdef, happ, hcl] at hpost
                simp [hc, ← hpost.1, ← hpost.2]
            | ok c2 =>
                simp [initialize_firebase_body, initialize_register_step,
                  initialize_client_step, h, hc, hdef, happ, hcl] at hpost
                simp [hc, ← hpost.1, ← hpost.2]

/-- C8: during `_initialize_firebase` with an empty app registry, any
registration left in the post-state used a certificate credential if and
only if the configured credentials path is truthy and exists on disk
(default application credentials otherwise), with options always carrying
the project id and carrying the database URL exactly when one is
configured; with a non-empty registry no registration occurs, the
registry and configuration are untouched, and only the cached client
handle can have changed. -/
theorem init_registration_spec (w : World) (s : MState) :
    (s.apps = none →
       ∀ cred opts, (initialize_firebase w s).2.1.apps = some (cred, opts) →
         cred = (if truthy s.config.credentials_path &&
                    w.pathExists (s.config.credentials_path.getD "") then
                   Cred.certificate (s.config.credentials_path.getD "")
                 else Cred.applicationDefault) ∧
         opts.projectId = s.config.project_id ∧
         opts.databaseURL =
           (if truthy s.config.database_url then s.config.database_url
            else none)) ∧
    (∀ a, s.apps = some a →
       countRegisters (initialize_firebase w s).2.2 = 0 ∧
       (initialize_firebase w s).2.1.apps = s.apps ∧
       (initialize_firebase w s).2.1.config = s.config ∧
       ∃ r, (initialize_firebase w s).2.1 = { s with firestore_client := r }) := by
  constructor
  · intro h cred opts hpost
    rw [initialize_firebase_post_state] at hpost
    exact initialize_firebase_body_registration w s h cred opts hpost
  · intro a ha
    have hreg := initialize_firebase_registers w s
    have hst := initialize_firebase_post_state w s
    cases hcl : w.clientOutcome with
    | error e =>
        have hb : initialize_firebase_body w s = (.error e, s, [.clientCtor]) := by
          simp [initialize_firebase_body, initialize_client_step, ha, hcl]
        rw [hb] at hreg hst
        refine ⟨by simpa [countRegisters, List.countP_cons, isRegisterEv]
            using hreg, ?_, ?_, ?_⟩
        · rw [hst]
        · rw [hst]
        · exact ⟨s.firestore_client, by rw [hst]⟩
    | ok c =>
        have hb : initialize_firebase_body w s =
            (.ok (), { s with firestore_client := c },
             [.clientCtor,
              .log (.info ("Firebase initialized successfully for project: " ++
                s.config.project_id))]) := by
          simp [initialize_firebase_body, initialize_client_step, ha, hcl]
        rw [hb] at hreg hst
        refine ⟨by simpa [countRegisters, List.countP_cons, isRegisterEv]
            using hreg, ?_, ?_, ?_⟩
        · rw [hst]
        · rw [hst]
        · exact ⟨c, by rw [hst]⟩

/-- Witness for `init_registration_spec`: with the certificate path
`/k.json` configured and present on disk and a database URL configured,
the registration uses the certificate credential and options
`{projectId := proj-1, databaseURL := some https://db.example}`. -/
theorem init_registration_spec_witness :
    Cred.certificate "/k.json" =
      (if truthy sCert.config.credentials_path &&
          wCert.pathExists (sCert.config.credentials_path.getD "") then
         Cred.certificate (sCert.config.credentials_path.getD "")
       else Cred.applicationDefault) ∧
    (AppOptions.mk "proj-1" (some "https://db.example")).projectId =
      sCert.config.project_id ∧
    (AppOptions.mk "proj-1" (some "https://db.example")).databaseURL =
      (if truthy sCert.config.database_url then sCert.config.database_url
       else none) :=
  (init_registration_spec wCert sCert).1 rfl (.certificate "/k.json")
    ⟨"proj-1", some "https://db.example"⟩ (by decide)

/-- Log records mapped into a trace contain no configuration-load event. -/
theorem countLoads_map_log (lg : List LogEvent) :
    countLoads (lg.map Event.log) = 0 := by
  induction lg with
  | nil => rfl
  | cons a l ih =>
      simp [countLoads, List.countP_cons, isLoadConfigEv] at ih ⊢

/-- Log records mapped into a trace contain no initialization entry. -/
theorem countInitAttempts_map_log (lg : List LogEvent) :
    countInitAttempts (lg.map Event.log) = 0 := by
  induction lg with
  | nil => rfl
  | cons a l ih =>
      simp [countInitAttempts, List.countP_cons, isInitAttemptEv] at ih ⊢

/-- A successful `from_env` emits no log records. -/
theorem from_env_ok_log (env : Env) (cfg : FirebaseConfig)
    (lg : List LogEvent) (h : from_env env = (.ok cfg, lg)) : lg = [] := by
  by_cases ht : truthy env.FIREBASE_PROJECT_ID = true
  · simp [from_env, ht] at h
    exact h.2
  · simp [from_env, ht] at h

/-- Behaviour of one `FirebaseManager()` evaluation on any process state
whose `_initialized` flag is unset: `from_env` runs exactly once;
`_initialize_firebase` runs exactly once whenever `from_env` succeeds; a
successful evaluation leaves the flag set; a failed one leaves it unset. -/
theorem construct_uninitialized (w : World) (env : Env) (s : ProcState)
    (h : s.initialized = false) :
    countLoads (construct w env s).2.2 = 1 ∧
    (∀ cfg lgg, from_env env = (.ok cfg, lgg) →
       countInitAttempts (construct w env s).2.2 = 1) ∧
    (∀ i, (construct w env s).1 = .ok i →
       (construct w env s).2.1.initialized = true) ∧
    (∀ e, (construct w env s).1 = .error e →
       (construct w env s).2.1.initialized = false) := by
  rcases hfe : from_env env with ⟨fe, lg⟩
  cases hsi : s._instance with
  | some j =>
      cases fe with
      | error e =>
          have hc : construct w env s =
              (.error e, s, Event.loadConfig :: lg.map Event.log) := by
            simp [construct, hsi, h, hfe]
          rw [hc]
          refine ⟨by simp [countLoads, List.countP_cons, isLoadConfigEv,
              countLoads_map_log, show List.countP isLoadConfigEv
                (List.map Event.log lg) = 0 from countLoads_map_log lg], ?_, ?_, ?_⟩
          · intro cfg lgg heq
            simp at heq
          · intro i hok
            simp at hok
          · intro e2 herr
            exact h
      | ok cfg =>
          have hlg : lg = [] := from_env_ok_log env cfg lg hfe
          subst hlg
          rcases hif : initialize_firebase w ⟨cfg, s.firestore_client, s.apps⟩
            with ⟨ir, m1, ev⟩
          have htr := initialize_firebase_trace w
            ⟨cfg, s.firestore_client, s.apps⟩
          rw [hif] at htr
          cases ir with
          | error e =>
              have hc : construct w env s =
                  (.error e,
                   { s with config? := some cfg,
                            firestore_client := m1.firestore_client,
                            apps := m1.apps },
                   Event.loadConfig :: ev) := by
                simp [construct, hsi, h, hfe, hif]
              rw [hc]
              refine ⟨?_, ?_, ?_, ?_⟩
              · simpa [countLoads, List.countP_cons, isLoadConfigEv]
                  using htr.2
              · intro cfg2 lgg heq
                simpa [countInitAttempts, List.countP_cons, isInitAttemptEv]
                  using htr.1
              · intro i hok
                simp at hok
              · intro e2 herr
                exact h
          | ok u =>
              have hc : construct w env s =
                  (.ok j,
                   { s with config? := some cfg,
                            firestore_client := m1.firestore_client,
                            apps := m1.apps, initialized := true },
                   Event.loadConfig :: ev) := by
                simp [construct, hsi, h, hfe, hif]
              rw [hc]
              refine ⟨?_, ?_, ?_, ?_⟩
              · simpa [countLoads, List.countP_cons, isLoadConfigEv]
                  using htr.2
              · intro cfg2 lgg heq
                simpa [countInitAttempts, List.countP_cons, isInitAttemptEv]
                  using htr.1
              · intro i hok
                rfl
              · intro e2 herr
                simp at herr
  | none =>
      cases fe with
      | error e =>
          have hc : construct w env s =
              (.error e,
               { s with _instance := some s.nextId, nextId := s.nextId + 1 },
               Event.loadConfig :: lg.map Event.log) := by
            simp [construct, hsi, h, hfe]
          rw [hc]
          refine ⟨by simp [countLoads, List.countP_cons, isLoadConfigEv,
              show List.countP isLoadConfigEv
                (List.map Event.log lg) = 0 from countLoads_map_log lg], ?_, ?_, ?_⟩
          · intro cfg lgg heq
            simp at heq
          · intro i hok
            simp at hok
          · intro e2 herr
            exact h
      | ok cfg =>
          have hlg : lg = [] := from_env_ok_log env cfg lg hfe
          subst hlg
          rcases hif : initialize_firebase w ⟨cfg, s.firestore_client, s.apps⟩
            with ⟨ir, m1, ev⟩
          have htr := initialize_firebase_trace w
            ⟨cfg, s.firestore_client, s.apps⟩
          rw [hif] at htr
          cases ir with
          | error e =>
              have hc : construct w env s =
                  (.error e,
                   { s with _instance := some s.nextId, nextId := s.nextId + 1,
                            config? := some cfg,
                            firestore_client := m1.firestore_client,
                            apps := m1.apps },
                   Event.loadConfig :: ev) := by
                simp [construct, hsi, h, hfe, hif]
              rw [hc]
              refine ⟨?_, ?_, ?_, ?_⟩
              · simpa [countLoads, List.countP_cons, isLoadConfigEv]
                  using htr.2
              · intro cfg2 lgg heq
                simpa [countInitAttempts, List.countP_cons, isInitAttemptEv]
                  using htr.1
              · intro i hok
                simp at hok
              · intro e2 herr
                exact h
          | ok u =>
              have hc : construct w env s =
                  (.ok s.nextId,
                   { s with _instance := some s.nextId, nextId := s.nextId + 1,
                            config? := some cfg,
                            firestore_client := m1.firestore_client,
                            apps := m1.apps, initialized := true },
                   Event.loadConfig :: ev) := by
                simp [construct, hsi, h, hfe, hif]
              rw [hc]
              refine ⟨?_, ?_, ?_, ?_⟩
              · simpa [countLoads, List.countP_cons, isLoadConfigEv]
                  using htr.2
              · intro cfg2 lgg heq
                simpa [countInitAttempts, List.countP_cons, isInitAttemptEv]
                  using htr.1
              · intro i hok
                rfl
              · intro e2 herr
                simp at herr

/-- C2: when the first `FirebaseManager()` evaluation in a fresh process
succeeds, a second evaluation returns the identical instance (the same
allocation id and unchanged state) with an empty trace, and configuration
loading and initialization each ran exactly once, in the first
evaluation. -/
theorem singleton_second_construction (w w2 : World) (env env2 : Env)
    (i : Nat) (h : (construct w env freshProc).1 = .ok i) :
    construct w2 env2 (construct w env freshProc).2.1 =
      (.ok i, (construct w env freshProc).2.1, []) ∧
    countLoads (construct w env freshProc).2.2 = 1 ∧
    countInitAttempts (construct w env freshProc).2.2 = 1 := by
  rcases hfe : from_env env with ⟨fe, lg⟩
  cases fe with
  | error e =>
      have hc : (construct w env freshProc).1 = .error e := by
        simp [construct, freshProc, hfe]
      rw [hc] at h
      simp at h
  | ok cfg =>
      have hlg := from_env_ok_log env cfg lg hfe
      subst hlg
      rcases hif : initialize_firebase w ⟨cfg, none, none⟩ with ⟨ir, m1, ev⟩
      have htr := initialize_firebase_trace w ⟨cfg, none, none⟩
      rw [hif] at htr
      cases ir with
      | error e =>
          have hc : (construct w env freshProc).1 = .error e := by
            simp [construct, freshProc, hfe, hif]
          rw [hc] at h
          simp at h
      | ok u =>
          have hc : construct w env freshProc =
              (.ok 0,
               { _instance := some 0, nextId := 1, initialized := true,
                 config? := some cfg,
                 firestore_client := m1.firestore_client, apps := m1.apps },
               Event.loadConfig :: ev) := by
            simp [construct, freshProc, hfe, hif]
          have hi : i = 0 := by
            rw [hc] at h
            injection h with h2
            exact h2.symm
          subst hi
          rw [hc]
          refine ⟨?_, ?_, ?_⟩
          · simp [construct]
          · simpa [countLoads, List.countP_cons, isLoadConfigEv] using htr.2
          · simpa [countInitAttempts, List.countP_cons, isInitAttemptEv]
              using htr.1

/-- Witness for `singleton_second_construction`: project id `proj-1`, all
SDK calls succeeding; the first evaluation returns instance `0` and the
second returns the same instance with no further side effects. -/
theorem singleton_second_construction_witness :
    construct wAllOk ⟨some "proj-1", none, none⟩
        (construct wAllOk ⟨some "proj-1", none, none⟩ freshProc).2.1 =
      (.ok 0,
       (construct wAllOk ⟨some "proj-1", none, none⟩ freshProc).2.1, []) ∧
    countLoads (construct wAllOk ⟨some "proj-1", none, none⟩ freshProc).2.2 = 1 ∧
    countInitAttempts
      (construct wAllOk ⟨some "proj-1", none, none⟩ freshProc).2.2 = 1 :=
  singleton_second_construction wAllOk wAllOk ⟨some "proj-1", none, none⟩
    ⟨some "proj-1", none, none⟩ 0 rfl

/-- C4 counterexample: with the project id unset, the first evaluation of
`FirebaseManager()` in a fresh process raises, but the singleton slot is
not left unconstructed: `__new__` at line 50 already stored the allocated
instance in `FirebaseManager._instance` before `__init__` raised. -/
theorem construction_failure_counterexample :
    (construct wAllOk ⟨none, none, none⟩ freshProc).1 =
      .error (.valueError "FIREBASE_PROJECT_ID environment variable not set") ∧
    (construct wAllOk ⟨none, none, none⟩ freshProc).2.1._instance = some 0 ∧
    ¬ (construct wAllOk ⟨none, none, none⟩ freshProc).2.1._instance = none := by
  refine ⟨rfl, rfl, ?_⟩
  intro hcon
  rw [show (construct wAllOk ⟨none, none, none⟩ freshProc).2.1._instance =
    some 0 from rfl] at hcon
  exact Option.noConfusion hcon

/-- C4 (amended): a failed first evaluation of `FirebaseManager()` in a
fresh process propagates its error to the caller and leaves the stored
instance uninitialized (`_initialized` unset), so a later evaluation
retries from scratch: it loads the configuration exactly once again, runs
initialization exactly once again whenever the configuration loads, and
any instance it returns is fully initialized — never a half-built one. -/
theorem construction_failure_retries (w w2 : World) (env env2 : Env)
    (e : PyErr) (h : (construct w env freshProc).1 = .error e) :
    (construct w env freshProc).2.1.initialized = false ∧
    countLoads
      (construct w2 env2 (construct w env freshProc).2.1).2.2 = 1 ∧
    (∀ cfg lgg, from_env env2 = (.ok cfg, lgg) →
       countInitAttempts
         (construct w2 env2 (construct w env freshProc).2.1).2.2 = 1) ∧
    (∀ i, (construct w2 env2 (construct w env freshProc).2.1).1 = .ok i →
       (construct w2 env2 (construct w env freshProc).2.1).2.1.initialized =
         true) := by
  have h1 := (construct_uninitialized w env freshProc rfl).2.2.2 e h
  have h2 := construct_uninitialized w2 env2 (construct w env freshProc).2.1 h1
  exact ⟨h1, h2.1, h2.2.1, h2.2.2.1⟩

/-- Witness for `construction_failure_retries`: first evaluation with the
project id unset fails; the retry with `proj-1` set loads the
configuration once, initializes once and returns an initialized
instance. -/
theorem construction_failure_retries_witness :
    (construct wAllOk ⟨none, none, none⟩ freshProc).2.1.initialized = false ∧
    countLoads (construct wAllOk ⟨some "proj-1", none, none⟩
      (construct wAllOk ⟨none, none, none⟩ freshProc).2.1).2.2 = 1 ∧
    countInitAttempts (construct wAllOk ⟨some "proj-1", none, none⟩
      (construct wAllOk ⟨none, none, none⟩ freshProc).2.1).2.2 = 1 ∧
    (construct wAllOk ⟨some "proj-1", none, none⟩
      (construct wAllOk ⟨none, none, none⟩ freshProc).2.1).2.1.initialized =
      true := by
  have h := construction_failure_retries wAllOk wAllOk ⟨none, none, none⟩
    ⟨some "proj-1", none, none⟩
    (.valueError "FIREBASE_PROJECT_ID environment variable not set") rfl
  exact ⟨h.1, h.2.1, h.2.2.1 ⟨"proj-1", none, none⟩ [] rfl, h.2.2.2 0 rfl⟩
